import Mathlib

/-!
Shallow embedding of the ClimateScope data pipeline (`app.py`): cleaning,
feature engineering, percentile-based extreme-event detection, and the
filter-plus-aggregate query engine of `render_content`.

Numeric cell values are modelled as exact rationals.  The float NaN that
pandas uses as its missing marker (and that `mean` skips) is modelled as
`Option.none`.  Calendar timestamps are modelled as explicit
(year, month, day, minute-of-day) records ordered lexicographically, so the
`to_period` month truncation is directly expressible.
-/

namespace ClimateScope

/-- A calendar timestamp: year, month (1..12), day of month, and minute of
day.  Ordering is lexicographic, matching chronological order of real
timestamps. -/
structure Timestamp where
  year : Int
  month : Nat
  day : Nat
  minute : Nat
deriving DecidableEq, Repr

/-- Chronological (lexicographic) order on timestamps. -/
def tsLE (a b : Timestamp) : Prop :=
  a.year < b.year ∨ (a.year = b.year ∧ (a.month < b.month ∨ (a.month = b.month ∧
    (a.day < b.day ∨ (a.day = b.day ∧ a.minute ≤ b.minute)))))

instance : DecidableRel tsLE := fun a b => by unfold tsLE; exact inferInstance

/-- The first instant of the calendar month of `t`: models
`dt.to_period('M').dt.to_timestamp()` (app.py line 175). -/
def monthStart (t : Timestamp) : Timestamp :=
  ⟨t.year, t.month, 1, 0⟩

/-- A raw row as read from the CSV, after column-name normalization.  The
`last_updated` field is the result of `pd.to_datetime(..., errors='coerce')`
(app.py line 19): `none` models a timestamp that failed to parse (NaT). -/
structure RawObs where
  country : String
  last_updated : Option Timestamp
  temperature_celsius : ℚ
  humidity : ℚ
  precip_mm : ℚ
  wind_kph : ℚ
  extra : List (String × ℚ)
deriving DecidableEq

/-- A row surviving cleaning: its timestamp parsed successfully. -/
structure CleanObs where
  country : String
  last_updated : Timestamp
  temperature_celsius : ℚ
  humidity : ℚ
  precip_mm : ℚ
  wind_kph : ℚ
  extra : List (String × ℚ)
deriving DecidableEq

/-- Cleaning (app.py lines 19-20): `df.dropna(subset=['last_updated'])`.
Rows whose timestamp failed to parse are silently dropped; no error is
possible (the function is total). -/
def clean (raws : List RawObs) : List CleanObs :=
  raws.filterMap (fun r => r.last_updated.map (fun t =>
    ⟨r.country, t, r.temperature_celsius, r.humidity,
      r.precip_mm, r.wind_kph, r.extra⟩))

/-- An engineered observation: a clean row plus the two derived metrics
(app.py lines 26-31).  `wind_chill` is `Option ℚ` because
`wind_kph ** 0.16` is NaN for negative `wind_kph` under numpy, and NaN is
modelled as `none`. -/
structure Obs where
  country : String
  last_updated : Timestamp
  temperature_celsius : ℚ
  humidity : ℚ
  precip_mm : ℚ
  wind_kph : ℚ
  heat_index : ℚ
  wind_chill : Option ℚ
  extra : List (String × ℚ)
deriving DecidableEq

/-- Feature engineering (app.py lines 26-31).  The parameter `p016` stands
for the real power `w ^ 0.16` on nonnegative arguments, whose value is
irrational in general; no claim depends on its value, so the development is
parametric in it.  For negative `wind_kph` the numpy power is NaN, so
`wind_chill` is `none` there, independent of `p016`. -/
def engineer (p016 : ℚ → ℚ) (r : CleanObs) : Obs :=
  { country := r.country
    last_updated := r.last_updated
    temperature_celsius := r.temperature_celsius
    humidity := r.humidity
    precip_mm := r.precip_mm
    wind_kph := r.wind_kph
    heat_index := r.temperature_celsius + 0.33 * r.humidity - 0.7
    wind_chill :=
      if r.wind_kph < 0 then none
      else some (13.12 + 0.6215 * r.temperature_celsius - 11.37 * p016 r.wind_kph)
    extra := r.extra }

/-- The metric registry (app.py lines 33-40): key / display-label pairs. -/
def METRICS : List (String × String) :=
  [("temperature_celsius", "Temperature (°C)"),
   ("humidity", "Humidity (%)"),
   ("precip_mm", "Precipitation (mm)"),
   ("wind_kph", "Wind Speed (kph)"),
   ("heat_index", "Heat Index"),
   ("wind_chill", "Wind Chill")]

/-- The six queryable metric keys of the registry. -/
def registryKeys : List String := METRICS.map Prod.fst

/-- The engineered dataset: its rows plus the names of the passthrough
columns the CSV happened to contain beyond the known ones. -/
structure Dataset where
  extraCols : List String
  rows : List Obs

/-- Columns every engineered dataframe has (normalized names plus the two
derived columns). -/
def baseCols : List String :=
  ["country", "last_updated", "temperature_celsius", "humidity",
   "precip_mm", "wind_kph", "heat_index", "wind_chill"]

/-- All column names of the dataframe. -/
def datasetCols (ds : Dataset) : List String :=
  baseCols ++ ds.extraCols

/-- Numeric value of column `k` in row `r`; `none` is the missing marker. -/
def colValue (r : Obs) (k : String) : Option ℚ :=
  if k = "temperature_celsius" then some r.temperature_celsius
  else if k = "humidity" then some r.humidity
  else if k = "precip_mm" then some r.precip_mm
  else if k = "wind_kph" then some r.wind_kph
  else if k = "heat_index" then some r.heat_index
  else if k = "wind_chill" then r.wind_chill
  else r.extra.lookup k

/-- The fractional rank of the 99th percentile among `n` sorted values:
`h = (n - 1) * 0.99`, as in numpy's default linear-interpolation method. -/
def rank99 (n : Nat) : ℚ :=
  ((n : ℚ) - 1) * (99 / 100)

/-- Index of the lower closest rank: `⌊(n-1) * 0.99⌋`. -/
def idx99 (n : Nat) : Nat :=
  (⌊rank99 n⌋).toNat

/-- The 99th percentile with linear interpolation between closest ranks:
models `Series.quantile(0.99)` (app.py lines 46-47).  The values are
sorted ascending and linearly interpolated between positions `⌊h⌋` and
`⌊h⌋ + 1` with fraction `h - ⌊h⌋`, where `h = rank99 n`. -/
def quantile99 (xs : List ℚ) : ℚ :=
  (List.insertionSort (fun a b => a ≤ b) xs).getD (idx99 xs.length) 0 +
    (rank99 xs.length - (idx99 xs.length : ℚ)) *
      ((List.insertionSort (fun a b => a ≤ b) xs).getD (idx99 xs.length + 1) 0 -
        (List.insertionSort (fun a b => a ≤ b) xs).getD (idx99 xs.length) 0)

/-- Whole-history temperature threshold (app.py line 46). -/
def tempThr (ds : Dataset) : ℚ :=
  quantile99 (ds.rows.map Obs.temperature_celsius)

/-- Whole-history wind threshold (app.py line 47). -/
def windThr (ds : Dataset) : ℚ :=
  quantile99 (ds.rows.map Obs.wind_kph)

/-- The extreme subset (app.py lines 49-52): rows at or above either
threshold. -/
def extremeDf (ds : Dataset) : List Obs :=
  ds.rows.filter (fun r =>
    decide (tempThr ds ≤ r.temperature_celsius ∨ windThr ds ≤ r.wind_kph))

/-- Aggregation mode of a query. -/
inductive AggMode where
  | Daily
  | Monthly
deriving DecidableEq, Repr

/-- Query-engine failure: unknown metric column. -/
inductive QError where
  | InvalidMetric
deriving DecidableEq, Repr

/-- One query: country filter (empty list means all), inclusive date range,
metric key, aggregation mode. -/
structure QuerySpec where
  countries : List String
  startDate : Timestamp
  endDate : Timestamp
  metric : String
  mode : AggMode

/-- One output row of a ResultView. -/
structure RRow where
  country : String
  last_updated : Timestamp
  value : Option ℚ
deriving DecidableEq, Repr

/-- The country list actually filtered on (app.py lines 164-165): an empty
selection is replaced by `df['country'].unique()`. -/
def effectiveCountries (ds : Dataset) (qs : QuerySpec) : List String :=
  if qs.countries = [] then (ds.rows.map Obs.country).dedup else qs.countries

/-- The filter step (app.py lines 167-171): country membership and the
inclusive date range. -/
def filteredRows (ds : Dataset) (qs : QuerySpec) : List Obs :=
  ds.rows.filter (fun r =>
    decide (r.country ∈ effectiveCountries ds qs ∧
      tsLE qs.startDate r.last_updated ∧ tsLE r.last_updated qs.endDate))

/-- Arithmetic mean skipping missing values: models pandas `mean` with its
default `skipna`.  All-missing (or empty) input yields a missing result. -/
def meanOpt (vs : List (Option ℚ)) : Option ℚ :=
  let xs := vs.filterMap id
  if xs = [] then none else some (xs.sum / (xs.length : ℚ))

/-- Order on group keys: by country, then by timestamp — the order pandas
`groupby(['country', 'month'])` sorts its groups in. -/
def keyLE (a b : String × Timestamp) : Prop :=
  a.1 < b.1 ∨ (a.1 = b.1 ∧ tsLE a.2 b.2)

instance : DecidableRel keyLE := fun a b => by unfold keyLE; exact inferInstance

/-- The distinct (country, month-start) keys of the rows, in sorted order —
the index of the pandas groupby result. -/
def groupKeys (rows : List Obs) : List (String × Timestamp) :=
  List.insertionSort keyLE
    ((rows.map (fun r => (r.country, monthStart r.last_updated))).dedup)

/-- The metric values of one (country, month) group. -/
def groupVals (rows : List Obs) (metric : String) (c : String) (m : Timestamp) :
    List (Option ℚ) :=
  (rows.filter (fun r =>
    decide (r.country = c ∧ monthStart r.last_updated = m))).map
    (fun r => colValue r metric)

/-- Monthly aggregation (app.py lines 174-182): one row per
(country, month) group, value the skipna mean of the group, timestamp the
first instant of the month. -/
def monthlyAgg (rows : List Obs) (metric : String) : List RRow :=
  (groupKeys rows).map (fun k => ⟨k.1, k.2, meanOpt (groupVals rows metric k.1 k.2)⟩)

/-- Daily mode is pass-through: each surviving row projects to
(country, timestamp, metric value) in dataset order. -/
def dailyRows (rows : List Obs) (metric : String) : List RRow :=
  rows.map (fun r => ⟨r.country, r.last_updated, colValue r metric⟩)

/-- The query engine.  A metric that is not a column of the dataframe makes
pandas/plotly raise on that request (modelled as `InvalidMetric`); otherwise
the filtered rows are passed through (Daily) or aggregated by month
(Monthly). -/
def execute (ds : Dataset) (qs : QuerySpec) : Except QError (List RRow) :=
  if qs.metric ∈ datasetCols ds then
    match qs.mode with
    | AggMode.Daily => Except.ok (dailyRows (filteredRows ds qs) qs.metric)
    | AggMode.Monthly => Except.ok (monthlyAgg (filteredRows ds qs) qs.metric)
  else Except.error QError.InvalidMetric

/-- Order on output rows corresponding to sortedness by (country, timestamp). -/
def rowLE (a b : RRow) : Prop :=
  keyLE (a.country, a.last_updated) (b.country, b.last_updated)

instance : DecidableRel rowLE := fun a b => by unfold rowLE; exact inferInstance

/-! Concrete example data used by the closed witnesses below. -/

/-- Two same-country, same-month observations with temperatures 10 and 20. -/
def exObsA : Obs := ⟨"X", ⟨2024, 1, 3, 0⟩, 10, 50, 0, 5, 0, none, []⟩

def exObsB : Obs := ⟨"X", ⟨2024, 1, 5, 0⟩, 20, 50, 0, 5, 0, none, []⟩

def exDS : Dataset := ⟨[], [exObsA, exObsB]⟩

/-- Monthly temperature query over all of 2024, all countries. -/
def exSpecM : QuerySpec :=
  ⟨[], ⟨2024, 1, 1, 0⟩, ⟨2024, 12, 31, 1439⟩, "temperature_celsius", AggMode.Monthly⟩

/-- Monthly wind-chill query over all of 2024, all countries. -/
def exSpecW : QuerySpec :=
  ⟨[], ⟨2024, 1, 1, 0⟩, ⟨2024, 12, 31, 1439⟩, "wind_chill", AggMode.Monthly⟩

/-- Same-country observations stored in reverse chronological order. -/
def exObsFeb : Obs := ⟨"X", ⟨2024, 2, 1, 0⟩, 10, 50, 0, 5, 0, none, []⟩

def exObsJan : Obs := ⟨"X", ⟨2024, 1, 5, 0⟩, 20, 50, 0, 5, 0, none, []⟩

def exDSrev : Dataset := ⟨[], [exObsFeb, exObsJan]⟩

/-- Daily temperature query over all of 2024, all countries. -/
def exSpecD : QuerySpec :=
  ⟨[], ⟨2024, 1, 1, 0⟩, ⟨2024, 12, 31, 1439⟩, "temperature_celsius", AggMode.Daily⟩

/-- An observation carrying a passthrough column `pressure_mb`. -/
def exObsP : Obs := ⟨"X", ⟨2024, 1, 3, 0⟩, 10, 50, 0, 5, 0, none, [("pressure_mb", 1013)]⟩

def exDSP : Dataset := ⟨["pressure_mb"], [exObsP]⟩

/-- A query for the passthrough column `pressure_mb`, not a registry key. -/
def exSpecP : QuerySpec :=
  ⟨[], ⟨2024, 1, 1, 0⟩, ⟨2024, 12, 31, 1439⟩, "pressure_mb", AggMode.Daily⟩

/-- A query whose start date is after its end date and whose metric is not a
column at all. -/
def exSpecBad : QuerySpec :=
  ⟨[], ⟨2024, 1, 2, 0⟩, ⟨2024, 1, 1, 0⟩, "bogus", AggMode.Daily⟩

/-- A valid-metric query whose start date is after its end date. -/
def exSpecRev : QuerySpec :=
  ⟨[], ⟨2024, 1, 2, 0⟩, ⟨2024, 1, 1, 0⟩, "temperature_celsius", AggMode.Monthly⟩

/-! Order lemmas for the timestamp and group-key relations. -/

theorem tsLE_trans {a b c : Timestamp} (h1 : tsLE a b) (h2 : tsLE b c) : tsLE a c := by
  unfold tsLE at h1 h2 ⊢; omega

theorem tsLE_total (a b : Timestamp) : tsLE a b ∨ tsLE b a := by
  unfold tsLE; omega

theorem keyLE_trans {a b c : String × Timestamp} (h1 : keyLE a b) (h2 : keyLE b c) :
    keyLE a c := by
  unfold keyLE at h1 h2 ⊢
  rcases h1 with h1 | ⟨e1, t1⟩ <;> rcases h2 with h2 | ⟨e2, t2⟩
  · exact Or.inl (lt_trans h1 h2)
  · exact Or.inl (e2 ▸ h1)
  · exact Or.inl (e1 ▸ h2)
  · exact Or.inr ⟨e1.trans e2, tsLE_trans t1 t2⟩

theorem keyLE_total (a b : String × Timestamp) : keyLE a b ∨ keyLE b a := by
  unfold keyLE
  rcases lt_trichotomy a.1 b.1 with h | h | h
  · exact Or.inl (Or.inl h)
  · rcases tsLE_total a.2 b.2 with ht | ht
    · exact Or.inl (Or.inr ⟨h, ht⟩)
    · exact Or.inr (Or.inr ⟨h.symm, ht⟩)
  · exact Or.inr (Or.inl h)

instance : IsTrans (String × Timestamp) keyLE := ⟨fun _ _ _ => keyLE_trans⟩

instance : IsTotal (String × Timestamp) keyLE := ⟨keyLE_total⟩

/-! Structural lemmas about the engine. -/

theorem monthStart_idem (t : Timestamp) : monthStart (monthStart t) = monthStart t := rfl

theorem execute_ok_monthly {ds : Dataset} {qs : QuerySpec} {rs : List RRow}
    (hm : qs.mode = AggMode.Monthly) (h : execute ds qs = Except.ok rs) :
    rs = monthlyAgg (filteredRows ds qs) qs.metric := by
  unfold execute at h
  split at h
  · rw [hm] at h
    simpa using h.symm
  · simp at h

theorem execute_ok_daily {ds : Dataset} {qs : QuerySpec} {rs : List RRow}
    (hm : qs.mode = AggMode.Daily) (h : execute ds qs = Except.ok rs) :
    rs = dailyRows (filteredRows ds qs) qs.metric := by
  unfold execute at h
  split at h
  · rw [hm] at h
    simpa using h.symm
  · simp at h

theorem groupKeys_nodup (rows : List Obs) : (groupKeys rows).Nodup :=
  ((List.perm_insertionSort keyLE _).nodup_iff).mpr (List.nodup_dedup _)

theorem mem_groupKeys {rows : List Obs} {k : String × Timestamp} :
    k ∈ groupKeys rows ↔
      k ∈ rows.map (fun r => (r.country, monthStart r.last_updated)) := by
  unfold groupKeys
  rw [(List.perm_insertionSort keyLE _).mem_iff, List.mem_dedup]

theorem execute_not_col {ds : Dataset} {qs : QuerySpec}
    (h : qs.metric ∉ datasetCols ds) :
    execute ds qs = Except.error QError.InvalidMetric := by
  unfold execute
  rw [if_neg h]

theorem countP_eq_of_nodup {α : Type} [DecidableEq α] (l : List α) (a : α)
    (h : l.Nodup) :
    l.countP (fun b => decide (b = a)) = if a ∈ l then 1 else 0 := by
  induction l with
  | nil => simp
  | cons x l ih =>
    rcases List.nodup_cons.mp h with ⟨hx, hl⟩
    by_cases hxa : x = a
    · subst hxa
      rw [List.countP_cons]
      simp [ih hl, hx]
    · rw [List.countP_cons]
      simp [ih hl, hxa, Ne.symm hxa]

/-- Concrete run of the engine: the two-row January dataset under the
Monthly temperature query yields the single mean row. -/
theorem exec_exDS_monthly :
    execute exDS exSpecM = Except.ok [⟨"X", ⟨2024, 1, 1, 0⟩, some 15⟩] := by
  norm_num [execute, exDS, exSpecM, exObsA, exObsB, datasetCols, baseCols, filteredRows,
    effectiveCountries, monthlyAgg, groupKeys, groupVals, meanOpt, colValue, monthStart,
    tsLE, keyLE, List.dedup, List.filterMap_cons, Option.some_ne_none]

/-- C9: the heat-index derivation is `temperature_celsius + 0.33 * humidity
- 0.7` with these exact coefficients, and at temperature 30 and humidity 50
it returns exactly 45.8 (the arithmetic is exact over ℚ). -/
theorem heat_index_formula :
    (∀ (p016 : ℚ → ℚ) (r : CleanObs),
        (engineer p016 r).heat_index = r.temperature_celsius + 0.33 * r.humidity - 0.7) ∧
    (∀ p016 : ℚ → ℚ,
        (engineer p016 ⟨"X", ⟨2024, 1, 1, 0⟩, 30, 50, 0, 5, []⟩).heat_index = 45.8) := by
  constructor
  · intro p016 r
    rfl
  · intro p016
    norm_num [engineer]

/-- C6: a row with negative `wind_kph` gets a missing `wind_chill` (never
an error: `engineer` is total), and the missing marker is skipped by the
aggregation mean rather than poisoning it. -/
theorem wind_chill_negative_missing :
    (∀ (p016 : ℚ → ℚ) (r : CleanObs), r.wind_kph < 0 →
        (engineer p016 r).wind_chill = none) ∧
    (∀ vs : List (Option ℚ), meanOpt (none :: vs) = meanOpt vs) := by
  constructor
  · intro p016 r h
    simp [engineer, h]
  · intro vs
    simp [meanOpt, List.filterMap_cons]

/-- Witness for C6 at a concrete row with `wind_kph = -5`. -/
theorem wind_chill_negative_missing_w :
    (engineer id ⟨"X", ⟨2024, 1, 3, 0⟩, 10, 50, 0, -5, []⟩).wind_chill = none :=
  wind_chill_negative_missing.1 id _ (by norm_num)

/-- C8: every row surviving cleaning has a timestamp that parsed
successfully, and cleaning keeps exactly the rows whose timestamp parsed —
rows with an unparseable timestamp are silently dropped, with no per-row
error (`clean` is a total function). -/
theorem clean_timestamps :
    (∀ (raws : List RawObs) (r : CleanObs), r ∈ clean raws →
        ∃ raw ∈ raws, raw.last_updated = some r.last_updated) ∧
    (∀ raws : List RawObs,
        (clean raws).length = (raws.filter (fun r => r.last_updated.isSome)).length) := by
  constructor
  · intro raws r hr
    obtain ⟨a, ha, hfa⟩ := List.mem_filterMap.mp hr
    rcases h2 : a.last_updated with _ | t
    · rw [h2] at hfa
      simp at hfa
    · rw [h2] at hfa
      simp only [Option.map_some'] at hfa
      injection hfa with hfa
      exact ⟨a, ha, by rw [h2, ← hfa]⟩
  · intro raws
    induction raws with
    | nil => rfl
    | cons a l ih =>
      rcases h2 : a.last_updated with _ | t
      · have hc : clean (a :: l) = clean l := by
          simp [clean, List.filterMap_cons, h2]
        rw [hc, List.filter_cons, h2]
        simp [ih]
      · have hc : clean (a :: l) =
            ⟨a.country, t, a.temperature_celsius, a.humidity, a.precip_mm,
              a.wind_kph, a.extra⟩ :: clean l := by
          simp [clean, List.filterMap_cons, h2]
        rw [hc, List.filter_cons, h2]
        simp [ih]

/-- Witness for C8: a two-row raw input with one bad timestamp; the
surviving cleaned row originates from a successfully parsed raw row. -/
theorem clean_timestamps_w :
    ∃ raw ∈ [(⟨"X", some ⟨2024, 1, 3, 0⟩, 10, 50, 0, 5, []⟩ : RawObs),
        ⟨"Y", none, 1, 2, 3, 4, []⟩],
      raw.last_updated = some (⟨"X", ⟨2024, 1, 3, 0⟩, 10, 50, 0, 5, []⟩ : CleanObs).last_updated :=
  clean_timestamps.1 _ _ (by simp [clean])

/-- C3: a query with an empty country set produces the same ResultView as
the same query with the set of all distinct countries of the dataset. -/
theorem empty_countries_eq_all :
    ∀ (ds : Dataset) (sd ed : Timestamp) (metric : String) (mode : AggMode),
      execute ds ⟨[], sd, ed, metric, mode⟩ =
        execute ds ⟨(ds.rows.map Obs.country).dedup, sd, ed, metric, mode⟩ := by
  intro ds sd ed metric mode
  have hec : effectiveCountries ds ⟨[], sd, ed, metric, mode⟩ =
      effectiveCountries ds ⟨(ds.rows.map Obs.country).dedup, sd, ed, metric, mode⟩ := by
    unfold effectiveCountries
    by_cases h : (ds.rows.map Obs.country).dedup = [] <;> simp [h]
  simp only [execute, filteredRows, hec]

/-- C4 counterexample: a query whose start date is after its end date but
whose metric is not a column makes the engine fail instead of returning an
empty ResultView, so the claim does not hold for every such query. -/
theorem start_after_end_cex :
    execute exDS exSpecBad = Except.error QError.InvalidMetric ∧
      ¬ tsLE exSpecBad.startDate exSpecBad.endDate := by
  constructor
  · exact execute_not_col (by decide)
  · decide

/-- C4 (amended): for every query whose metric is a dataset column, a start
date strictly after the end date yields the empty ResultView, with no
error. -/
theorem start_after_end_empty :
    ∀ (ds : Dataset) (qs : QuerySpec), qs.metric ∈ datasetCols ds →
      ¬ tsLE qs.startDate qs.endDate → execute ds qs = Except.ok [] := by
  intro ds qs
  obtain ⟨cs, sd, ed, m, mode⟩ := qs
  intro hmem hlt
  have hfe : filteredRows ds ⟨cs, sd, ed, m, mode⟩ = [] := by
    rw [filteredRows, List.filter_eq_nil_iff]
    intro r hr
    simp only [decide_eq_true_eq, not_and]
    intro _ h1 h2
    exact hlt (tsLE_trans h1 h2)
  cases mode
  · simp [execute, hmem, hfe, dailyRows]
  · simp [execute, hmem, hfe, monthlyAgg, groupKeys, List.dedup]

/-- Witness for the amended C4: a Monthly temperature query with reversed
dates on the example dataset returns the empty ResultView. -/
theorem start_after_end_empty_w :
    execute exDS exSpecRev = Except.ok [] :=
  start_after_end_empty exDS exSpecRev (by simp [exSpecRev, exDS, datasetCols, baseCols])
    (by decide)

/-- C7 counterexample: `pressure_mb` is not one of the six registry keys,
yet a query for it succeeds on a dataset carrying that passthrough column,
so not every non-registry metric key fails. -/
theorem invalid_metric_cex :
    ("pressure_mb" ∉ registryKeys) ∧
      execute exDSP exSpecP = Except.ok [⟨"X", ⟨2024, 1, 3, 0⟩, some 1013⟩] := by
  constructor
  · decide
  · norm_num [execute, exDSP, exSpecP, exObsP, datasetCols, baseCols, filteredRows,
      effectiveCountries, dailyRows, colValue, tsLE, List.dedup]
    decide

/-- C7 (amended): the engine fails with `InvalidMetric` exactly on metric
keys that are not columns of the dataframe; every registry key is always a
column (so registry metrics never fail this way).  The engine is a pure
function of the dataset and the query, so a failure is confined to its own
request and cannot affect the dataset or other queries. -/
theorem invalid_metric_error :
    (∀ (ds : Dataset) (qs : QuerySpec), qs.metric ∉ datasetCols ds →
        execute ds qs = Except.error QError.InvalidMetric) ∧
    (∀ (ds : Dataset) (k : String), k ∈ registryKeys → k ∈ datasetCols ds) := by
  constructor
  · intro ds qs h
    exact execute_not_col h
  · intro ds k hk
    simp [registryKeys, METRICS] at hk
    rcases hk with rfl | rfl | rfl | rfl | rfl | rfl <;> simp [datasetCols, baseCols]

/-- Witness for the amended C7: the metric key `bogus` is not a column of
the example dataset and the engine reports `InvalidMetric` for it. -/
theorem invalid_metric_error_w :
    execute exDS exSpecBad = Except.error QError.InvalidMetric :=
  invalid_metric_error.1 exDS exSpecBad (by decide)

/-! The 99th-percentile threshold never exceeds the maximum of the data,
which makes the extreme subset of a non-empty dataset non-empty. -/

theorem exists_max_mem : ∀ (xs : List ℚ), xs ≠ [] → ∃ m ∈ xs, ∀ x ∈ xs, x ≤ m
  | [], h => absurd rfl h
  | x :: xs, _ => by
    rcases eq_or_ne xs [] with rfl | hne
    · exact ⟨x, List.mem_singleton_self x, by simp⟩
    · obtain ⟨m, hm, hle⟩ := exists_max_mem xs hne
      rcases le_total x m with hxm | hmx
      · refine ⟨m, List.mem_cons_of_mem _ hm, ?_⟩
        intro y hy
        rcases List.mem_cons.mp hy with rfl | hy
        · exact hxm
        · exact hle y hy
      · refine ⟨x, List.mem_cons_self _ _, ?_⟩
        intro y hy
        rcases List.mem_cons.mp hy with rfl | hy
        · exact le_refl y
        · exact le_trans (hle y hy) hmx

theorem getD_mem {s : List ℚ} {i : Nat} (h : i < s.length) : s.getD i 0 ∈ s := by
  rw [List.getD_eq_getElem?_getD, List.getElem?_eq_getElem h]
  exact List.getElem_mem h

theorem quantile99_le_of_forall_le {xs : List ℚ} {m : ℚ} (hne : xs ≠ [])
    (hm : ∀ x ∈ xs, x ≤ m) : quantile99 xs ≤ m := by
  have hperm := List.perm_insertionSort (fun a b : ℚ => a ≤ b) xs
  have hlen : (List.insertionSort (fun a b : ℚ => a ≤ b) xs).length = xs.length :=
    hperm.length_eq
  have hmem : ∀ y ∈ List.insertionSort (fun a b : ℚ => a ≤ b) xs, y ≤ m :=
    fun y hy => hm y (hperm.subset hy)
  have hn1 : 1 ≤ xs.length := List.length_pos.mpr hne
  rcases Nat.lt_or_ge xs.length 2 with h2 | h2
  · have hx1 : xs.length = 1 := le_antisymm (Nat.lt_succ_iff.mp h2) hn1
    have hi : idx99 1 = 0 := by norm_num [idx99, rank99]
    have hr : rank99 1 = 0 := by norm_num [rank99]
    unfold quantile99
    rw [hx1, hi, hr]
    simp only [Nat.cast_zero, sub_zero, zero_mul, add_zero, zero_sub, neg_mul]
    exact hmem _ (getD_mem (by omega))
  · have hq0 : (0 : ℚ) ≤ rank99 xs.length := by
      unfold rank99
      have hcast : (1 : ℚ) ≤ (xs.length : ℚ) := by exact_mod_cast hn1
      nlinarith
    have hqlt : rank99 xs.length < (xs.length : ℚ) - 1 := by
      unfold rank99
      have hcast : (2 : ℚ) ≤ (xs.length : ℚ) := by exact_mod_cast h2
      nlinarith
    have hfl0 : 0 ≤ ⌊rank99 xs.length⌋ := Int.floor_nonneg.mpr hq0
    have hic : (idx99 xs.length : ℤ) = ⌊rank99 xs.length⌋ := by
      unfold idx99
      exact Int.toNat_of_nonneg hfl0
    have hidxq : ((idx99 xs.length : ℕ) : ℚ) = ((⌊rank99 xs.length⌋ : ℤ) : ℚ) := by
      exact_mod_cast congrArg (fun z : ℤ => (z : ℚ)) hic
    have hg1 : rank99 xs.length - (idx99 xs.length : ℚ) ≤ 1 := by
      have hfa := Int.lt_floor_add_one (rank99 xs.length)
      rw [hidxq]
      push_cast at hfa ⊢
      linarith
    have hglo : 0 ≤ rank99 xs.length - (idx99 xs.length : ℚ) := by
      have hfa := Int.floor_le (rank99 xs.length)
      rw [hidxq]
      linarith
    have hfl : ⌊rank99 xs.length⌋ < (xs.length : ℤ) - 1 := by
      have hfa := Int.floor_le (rank99 xs.length)
      have h3 : ((⌊rank99 xs.length⌋ : ℤ) : ℚ) < (xs.length : ℚ) - 1 :=
        lt_of_le_of_lt hfa hqlt
      have h4 : ((⌊rank99 xs.length⌋ : ℤ) : ℚ) < (((xs.length : ℤ) - 1 : ℤ) : ℚ) := by
        push_cast
        push_cast at h3
        linarith
      exact_mod_cast h4
    have hilt : idx99 xs.length + 1 < xs.length := by
      unfold idx99
      omega
    have ha : (List.insertionSort (fun a b : ℚ => a ≤ b) xs).getD (idx99 xs.length) 0 ≤ m :=
      hmem _ (getD_mem (by omega))
    have hb : (List.insertionSort (fun a b : ℚ => a ≤ b) xs).getD (idx99 xs.length + 1) 0 ≤ m :=
      hmem _ (getD_mem (by omega))
    unfold quantile99
    nlinarith [mul_nonneg hglo (sub_nonneg.mpr hb),
      mul_nonneg (sub_nonneg.mpr hg1) (sub_nonneg.mpr ha)]

/-- C5: the extreme subset is non-empty whenever the dataset is non-empty —
the row attaining the maximum temperature always sits at or above the
99th-percentile temperature threshold. -/
theorem extreme_nonempty :
    ∀ ds : Dataset, ds.rows ≠ [] → extremeDf ds ≠ [] := by
  intro ds hne
  have hmapne : ds.rows.map Obs.temperature_celsius ≠ [] := by
    simpa using hne
  obtain ⟨m, hm, hle⟩ := exists_max_mem _ hmapne
  obtain ⟨r, hr, hrt⟩ := List.mem_map.mp hm
  have hthr : tempThr ds ≤ r.temperature_celsius := by
    unfold tempThr
    exact le_trans (quantile99_le_of_forall_le hmapne hle) (le_of_eq hrt.symm)
  have hmem : r ∈ extremeDf ds := by
    rw [extremeDf, List.mem_filter]
    refine ⟨hr, ?_⟩
    simp only [decide_eq_true_eq]
    exact Or.inl hthr
  exact List.ne_nil_of_mem hmem

/-- Witness for C5 on the concrete two-row dataset. -/
theorem extreme_nonempty_w : extremeDf exDS ≠ [] :=
  extreme_nonempty exDS (by simp [exDS])

/-- Concrete run of the engine: the Monthly wind-chill query over the
example dataset, whose wind-chill values are all missing, still yields one
row for the group, with a missing value. -/
theorem exec_exDS_wind :
    execute exDS exSpecW = Except.ok [⟨"X", ⟨2024, 1, 1, 0⟩, none⟩] := by
  norm_num [execute, exDS, exSpecW, exObsA, exObsB, datasetCols, baseCols, filteredRows,
    effectiveCountries, monthlyAgg, groupKeys, groupVals, meanOpt, colValue, monthStart,
    tsLE, keyLE, List.dedup, List.filterMap_cons]
  decide

/-- C1: in Monthly mode the ResultView has exactly one row per
(country, calendar month) group of the filtered rows; every row's timestamp
is the first instant of its month and its value is the arithmetic mean of
the group's non-missing metric values; concretely, two same-country,
same-month rows with metric values 10 and 20 yield exactly the single
output row with value 15. -/
theorem monthly_one_row_per_group :
    (∀ (ds : Dataset) (qs : QuerySpec) (rs : List RRow),
        qs.mode = AggMode.Monthly → execute ds qs = Except.ok rs →
          (∀ (c : String) (m : Timestamp),
              rs.countP (fun row => decide (row.country = c ∧ row.last_updated = m)) =
                if (c, m) ∈ (filteredRows ds qs).map
                    (fun r => (r.country, monthStart r.last_updated)) then 1 else 0) ∧
          (∀ row ∈ rs, row.last_updated = monthStart row.last_updated ∧
              row.value = meanOpt (groupVals (filteredRows ds qs) qs.metric
                row.country row.last_updated))) ∧
    execute exDS exSpecM = Except.ok [⟨"X", ⟨2024, 1, 1, 0⟩, some 15⟩] := by
  constructor
  · intro ds qs rs hmode hok
    have hrs := execute_ok_monthly hmode hok
    subst hrs
    constructor
    · intro c m
      unfold monthlyAgg
      rw [List.countP_map]
      have hpred : ((fun row : RRow => decide (row.country = c ∧ row.last_updated = m)) ∘
          fun k : String × Timestamp =>
            (⟨k.1, k.2, meanOpt (groupVals (filteredRows ds qs) qs.metric k.1 k.2)⟩ : RRow)) =
          fun k : String × Timestamp => decide (k = (c, m)) := by
        funext k
        simp only [Function.comp_apply]
        rw [decide_eq_decide]
        rcases k with ⟨k1, k2⟩
        simp
      rw [hpred, countP_eq_of_nodup _ _ (groupKeys_nodup _)]
      by_cases hmem2 : (c, m) ∈ (filteredRows ds qs).map
          (fun r => (r.country, monthStart r.last_updated))
      · rw [if_pos (mem_groupKeys.mpr hmem2), if_pos hmem2]
      · rw [if_neg (fun hc => hmem2 (mem_groupKeys.mp hc)), if_neg hmem2]
    · intro row hrow
      unfold monthlyAgg at hrow
      obtain ⟨k, hk, hkr⟩ := List.mem_map.mp hrow
      obtain ⟨r, hrmem, hkey⟩ := List.mem_map.mp (mem_groupKeys.mp hk)
      constructor
      · rw [← hkr]
        show k.2 = monthStart k.2
        rw [← hkey]
        rfl
      · rw [← hkr]
  · exact exec_exDS_monthly

/-- Witness for C1: the exactly-one-row count evaluated at the concrete
group of the example Monthly query. -/
theorem monthly_one_row_per_group_w :
    ([(⟨"X", ⟨2024, 1, 1, 0⟩, some 15⟩ : RRow)]).countP
        (fun row => decide (row.country = "X" ∧ row.last_updated = ⟨2024, 1, 1, 0⟩)) =
      if ("X", (⟨2024, 1, 1, 0⟩ : Timestamp)) ∈ (filteredRows exDS exSpecM).map
          (fun r => (r.country, monthStart r.last_updated)) then 1 else 0 :=
  (monthly_one_row_per_group.1 exDS exSpecM _ rfl monthly_one_row_per_group.2).1 "X" _

/-- C10: a (country, month) group all of whose metric values are missing
still contributes one output row, with a missing value, instead of being
dropped from the ResultView. -/
theorem monthly_all_missing_row :
    ∀ (ds : Dataset) (qs : QuerySpec) (rs : List RRow) (c : String) (m : Timestamp),
      qs.mode = AggMode.Monthly → execute ds qs = Except.ok rs →
      (c, m) ∈ (filteredRows ds qs).map (fun r => (r.country, monthStart r.last_updated)) →
      (∀ v ∈ groupVals (filteredRows ds qs) qs.metric c m, v = none) →
      ∃ row ∈ rs, row.country = c ∧ row.last_updated = m ∧ row.value = none := by
  intro ds qs rs c m hmode hok hmem hall
  have hrs := execute_ok_monthly hmode hok
  subst hrs
  have hnil : (groupVals (filteredRows ds qs) qs.metric c m).filterMap id = [] :=
    List.filterMap_eq_nil_iff.mpr (fun v hv => hall v hv)
  refine ⟨⟨c, m, meanOpt (groupVals (filteredRows ds qs) qs.metric c m)⟩, ?_, rfl, rfl, ?_⟩
  · unfold monthlyAgg
    exact List.mem_map.mpr ⟨(c, m), mem_groupKeys.mpr hmem, rfl⟩
  · simp [meanOpt, hnil]

/-- Witness for C10: the all-missing wind-chill group of the example
dataset still yields its row, with a missing value. -/
theorem monthly_all_missing_row_w :
    ∃ row ∈ [(⟨"X", ⟨2024, 1, 1, 0⟩, none⟩ : RRow)], row.country = "X" ∧
      row.last_updated = (⟨2024, 1, 1, 0⟩ : Timestamp) ∧ row.value = none :=
  monthly_all_missing_row exDS exSpecW _ "X" _ rfl exec_exDS_wind (by decide) (by decide)

/-- C2 counterexample: Daily mode passes rows through in dataset order, so
a dataset stored in reverse chronological order yields a ResultView that is
not sorted by (country, timestamp). -/
theorem sorted_output_cex :
    execute exDSrev exSpecD =
        Except.ok [⟨"X", ⟨2024, 2, 1, 0⟩, some 10⟩, ⟨"X", ⟨2024, 1, 5, 0⟩, some 20⟩] ∧
      ¬ ([(⟨"X", ⟨2024, 2, 1, 0⟩, some 10⟩ : RRow),
          ⟨"X", ⟨2024, 1, 5, 0⟩, some 20⟩].Pairwise rowLE) := by
  constructor
  · norm_num [execute, exDSrev, exSpecD, exObsFeb, exObsJan, datasetCols, baseCols,
      filteredRows, effectiveCountries, dailyRows, colValue, tsLE, List.dedup]
  · intro hp
    have h1 := (List.pairwise_cons.mp hp).1 _ (List.mem_cons_self _ _)
    unfold rowLE keyLE at h1
    rcases h1 with h1 | ⟨e1, t1⟩
    · exact lt_irrefl _ h1
    · exact (by decide : ¬ tsLE ⟨2024, 2, 1, 0⟩ ⟨2024, 1, 5, 0⟩) t1

/-- C2 (amended): Monthly-mode output is sorted by (country, timestamp) —
pandas sorts the groupby keys — while Daily-mode output is the
pass-through projection of the filtered rows in dataset order, hence
sorted only when the dataset already is. -/
theorem sorted_output :
    (∀ (ds : Dataset) (qs : QuerySpec) (rs : List RRow),
        qs.mode = AggMode.Monthly → execute ds qs = Except.ok rs → rs.Pairwise rowLE) ∧
    (∀ (ds : Dataset) (qs : QuerySpec) (rs : List RRow),
        qs.mode = AggMode.Daily → execute ds qs = Except.ok rs →
          rs = dailyRows (filteredRows ds qs) qs.metric) := by
  constructor
  · intro ds qs rs hmode hok
    have hrs := execute_ok_monthly hmode hok
    subst hrs
    unfold monthlyAgg
    have hsorted : (groupKeys (filteredRows ds qs)).Pairwise keyLE := by
      unfold groupKeys
      exact List.sorted_insertionSort keyLE _
    exact List.Pairwise.map _ (fun a b hab => hab) hsorted
  · intro ds qs rs hmode hok
    exact execute_ok_daily hmode hok

/-- Witness for the amended C2: the Monthly example output is sorted. -/
theorem sorted_output_w :
    ([(⟨"X", ⟨2024, 1, 1, 0⟩, some 15⟩ : RRow)]).Pairwise rowLE :=
  sorted_output.1 exDS exSpecM _ rfl exec_exDS_monthly

end ClimateScope
